import Mathlib

/-!
Shallow embedding of `src/location.py` (a macOS location MCP server).

Modelling conventions:
* Wall-clock times and float quantities are rationals (`ℚ`).
* The process-wide dict `_location_cache` is the structure `Cache`
  (fields `data`, `timestamp`, `cache_duration` as in the source).
* A location result dict is `LocResult`: either a formatted fix
  (`_format_location_data` output, success case) or an error dict
  `\x7b"error": description\x7d` (`LocResult.failure description`).
* The CoreLocation side (authorization state, and the single terminal
  delegate notification) is the environment `Env`.  The delegate receives
  at most one event; `Env.sensor = some (k, ev)` means the event is
  delivered during run-loop iteration `k+1` of the wait loop,
  `none` means no notification ever arrives.
* The wait loop `while not delegate.is_updated and time.time() - start < timeout:
  runUntilDate(polling_interval)` advances time by `polling_interval` per
  iteration; absent an event it runs `⌈timeout / polling_interval⌉` iterations.
* Observable side effects that the spec talks about (whether
  `startUpdatingLocation` was called, how many loop iterations ran, whether
  the cached fast path was taken, and the wall-clock value at the `return`
  statement) are recorded in a ghost `Trace`.
-/

/-- CoreLocation error code `kCLErrorLocationUnknown` (value 0). -/
def kCLErrorLocationUnknown : Int := 0

/-- CoreLocation error code `kCLErrorDenied` (value 1). -/
def kCLErrorDenied : Int := 1

/-- Platform authorization states (`kCLAuthorizationStatus…` constants). -/
inductive AuthStatus where
  | notDetermined
  | restricted
  | denied
  | authorizedAlways
  | authorizedWhenInUse
deriving DecidableEq, Repr

/-- The CoreLocation accuracy constants used as values of `accuracy_map`. -/
inductive AccuracyConst where
  | best
  | bestForNavigation
  | nearestTenMeters
  | hundredMeters
  | kilometer
  | threeKilometers
deriving DecidableEq, Repr

/-- A CoreLocation error object: only its `code()` is observed by the code. -/
structure CLError where
  code : Int
deriving DecidableEq, Repr

/-- A `CLLocation` position fix, with the fields read by
`_format_location_data` (source lines 72-81). -/
structure PositionFix where
  latitude : ℚ
  longitude : ℚ
  accuracy : ℚ
  altitude : ℚ
  altitude_accuracy : ℚ
  course : ℚ
  speed : ℚ
  timestamp : ℚ
deriving DecidableEq, Repr

/-- The dictionary returned by `get_current_location`: either the formatted
fix produced by `_format_location_data`, or an error dict. -/
inductive LocResult where
  | fix (p : PositionFix)
  | failure (description : String)
deriving DecidableEq, Repr

/-- The delegate notification: exactly one of
`locationManager_didUpdateLocations_` / `locationManager_didFailWithError_`. -/
inductive SensorEvent where
  | didUpdate (f : PositionFix)
  | didFail (e : CLError)
deriving DecidableEq, Repr

/-- The module-level `_location_cache` dict (source lines 30-34). -/
structure Cache where
  data : Option LocResult
  timestamp : ℚ
  cache_duration : ℤ
deriving DecidableEq, Repr

/-- The platform environment of one call: the authorization state reported by
`CLLocationManager.authorizationStatus()`, and the delegate notification
schedule (`some (k, ev)`: event delivered during wait-loop iteration `k+1`;
`none`: the sensor never notifies). -/
structure Env where
  authStatus : AuthStatus
  sensor : Option (ℕ × SensorEvent)
deriving DecidableEq, Repr

/-- Ghost observables of one `get_current_location` call. -/
structure Trace where
  sensorStarted : Bool
  loopIters : ℕ
  usedCache : Bool
  timeAtReturn : ℚ
deriving DecidableEq, Repr

/-- `_get_error_info` (source lines 88-111): error code and description. -/
def get_error_info : Option CLError → Int × String
  | none => (0, "Unknown error")
  | some e =>
      let d :=
        if e.code = kCLErrorLocationUnknown then "Unable to determine location"
        else if e.code = kCLErrorDenied then
          "Location services access denied. Please enable in System Preferences."
        else "Location services error " ++ toString e.code
      (e.code, d)

/-- `timeout = min(max(1, timeout), 30)` (source line 141). -/
def clampTimeout (t : ℤ) : ℤ := min (max 1 t) 30

/-- `polling_interval = min(max(0.1, polling_interval), 1.0)` (source line 142). -/
def clampPoll (p : ℚ) : ℚ := min (max (1/10) p) 1

/-- The `accuracy_map.get(accuracy.lower(), kCLLocationAccuracyBest)` lookup
(source lines 151-159). -/
def accuracyConst (s : String) : AccuracyConst :=
  let l := s.toLower
  if l = "best" then .best
  else if l = "navigation" then .bestForNavigation
  else if l = "ten_meters" then .nearestTenMeters
  else if l = "hundred_meters" then .hundredMeters
  else if l = "kilometer" then .kilometer
  else if l = "three_kilometers" then .threeKilometers
  else .best

/-- Freshness test of the cache (the condition of source lines 146-147,
without the `use_cache` flag): data present and
`current_time - timestamp < cache_duration`. -/
def cacheFresh (c : Cache) (now : ℚ) : Bool :=
  c.data.isSome && decide (now - c.timestamp < (c.cache_duration : ℚ))

/-- The cache update performed on both outcome paths (source lines 194-195
and 203-204): `_location_cache["data"] = result; _location_cache["timestamp"]
= current_time`.  `cache_duration` is untouched. -/
def storeOutcome (c : Cache) (r : LocResult) (now : ℚ) : Cache :=
  { c with data := some r, timestamp := now }

/-- Number of wait-loop iterations when no notification arrives: the least
`n` with `¬(n * pollInt < timeout)`, i.e. `⌈timeout / pollInt⌉` (the loop at
source line 182 checks `time.time() - start_time < timeout` with elapsed time
`n * pollInt` after `n` iterations). -/
def maxIters (timeout : ℤ) (pollInt : ℚ) : ℕ := ⌈(timeout : ℚ) / pollInt⌉₊

/-- The acquisition part of `get_current_location` (source lines 150-206):
accuracy mapping, authorization fast-fail check, `startUpdatingLocation`,
wait loop, `stopUpdatingLocation`, outcome classification and cache store.
`timeout` and `pollInt` are the already-clamped parameters. -/
def runAcquisition (timeout : ℤ) (pollInt : ℚ) (accuracy : String)
    (env : Env) (cache : Cache) (now : ℚ) : LocResult × Cache × Trace :=
  let _desired := accuracyConst accuracy
  -- source lines 174-176: fast-fail before startUpdatingLocation
  if env.authStatus = AuthStatus.denied then
    (LocResult.failure (get_error_info none).2, cache,
      { sensorStarted := false, loopIters := 0, usedCache := false,
        timeAtReturn := now })
  else
    let N := maxIters timeout pollInt
    -- final delegate state after the wait loop (source lines 181-183)
    let delivered : Option SensorEvent :=
      match env.sensor with
      | some (k, ev) => if k + 1 ≤ N then some ev else none
      | none => none
    let iters : ℕ :=
      match env.sensor with
      | some (k, _) => if k + 1 ≤ N then k + 1 else N
      | none => N
    let locErr : Option CLError :=
      match delivered with
      | some (SensorEvent.didFail e) => some e
      | _ => none
    let loc : Option PositionFix :=
      match delivered with
      | some (SensorEvent.didUpdate f) => some f
      | _ => none
    -- classification (source lines 189-200); both branches store `result`
    -- with `current_time` (lines 194-195 and 203-204) and return it
    let result : LocResult :=
      match locErr, loc with
      | some e, _ => LocResult.failure (get_error_info (some e)).2
      | none, none => LocResult.failure (get_error_info none).2
      | none, some f => LocResult.fix f
    (result, storeOutcome cache result now,
      { sensorStarted := true, loopIters := iters, usedCache := false,
        timeAtReturn := now + iters * pollInt })

/-- `get_current_location` (source lines 113-206).  `now` is the value of
`time.time()` at source line 145 (`current_time`).  Returns the result dict,
the cache after the call, and the ghost trace. -/
def get_current_location (use_cache : Bool) (timeout : ℤ) (accuracy : String)
    (polling_interval : ℚ) (env : Env) (cache : Cache) (now : ℚ) :
    LocResult × Cache × Trace :=
  let t := clampTimeout timeout
  let p := clampPoll polling_interval
  -- source lines 146-148: cached fast path
  match use_cache, cache.data with
  | true, some r =>
      if now - cache.timestamp < (cache.cache_duration : ℚ) then
        (r, cache,
          { sensorStarted := false, loopIters := 0, usedCache := true,
            timeAtReturn := now })
      else runAcquisition t p accuracy env cache now
  | true, none => runAcquisition t p accuracy env cache now
  | false, _ => runAcquisition t p accuracy env cache now

/-- `clear_location_cache` (source lines 208-219): data to `None`,
timestamp to 0; returns the status string. -/
def clear_location_cache (c : Cache) : String × Cache :=
  ("cache_cleared", { c with data := none, timestamp := 0 })

/-- `set_cache_duration` (source lines 221-234):
`max(5, min(seconds, 300))`, stored and returned. -/
def set_cache_duration (seconds : ℤ) (c : Cache) : ℤ × Cache :=
  let d := max 5 (min seconds 300)
  (d, { c with cache_duration := d })

/-- The dict returned by `get_cache_status`. -/
structure CacheStatus where
  has_cached_data : Bool
  cache_duration : ℤ
  seconds_since_update : ℚ
  seconds_until_expiration : ℚ
  is_expired : Bool
deriving DecidableEq, Repr

/-- `get_cache_status` (source lines 236-256). -/
def get_cache_status (c : Cache) (now : ℚ) : CacheStatus :=
  let time_since_update := now - c.timestamp
  let has_data := c.data.isSome
  { has_cached_data := has_data
    cache_duration := c.cache_duration
    seconds_since_update := if has_data then time_since_update else 0
    seconds_until_expiration :=
      if has_data then max 0 ((c.cache_duration : ℚ) - time_since_update) else 0
    is_expired :=
      if has_data then decide (time_since_update > (c.cache_duration : ℚ))
      else true }

/-- Characters allowed in a URL scheme after the first, per
`urllib.parse.scheme_chars`: letters, digits, `+`, `-`, `.`. -/
def schemeChar (c : Char) : Bool := c.isAlpha || c.isDigit || c == '+' || c == '-' || c == '.'

/-- Split a character list at the first `:`; `none` when there is no colon. -/
def splitAtColon : List Char → Option (List Char × List Char)
  | [] => none
  | c :: cs =>
      if c = ':' then some ([], cs)
      else
        match splitAtColon cs with
        | some (pre, post) => some (c :: pre, post)
        | none => none

/-- The `scheme` and `netloc` of `urllib.parse.urlparse(url)`: the part
before the first `:` is the scheme iff it is nonempty, starts with a letter
and has only scheme characters (lowercased on extraction); the netloc is then
present iff the remainder starts with `//`, and runs to the next `/`, `?` or
`#`. -/
def urlparseSchemeNetloc (url : String) : String × String :=
  let cs := url.data
  let (scheme, rest) :=
    match splitAtColon cs with
    | some (pre, post) =>
        if pre ≠ [] ∧ (pre.headD ' ').isAlpha ∧ pre.all schemeChar then
          (pre.map Char.toLower, post)
        else ([], cs)
    | none => ([], cs)
  let netloc :=
    match rest with
    | '/' :: '/' :: r => r.takeWhile (fun c => c != '/' && c != '?' && c != '#')
    | _ => []
  (String.mk scheme, String.mk netloc)

/-- The dict returned synchronously by `get_location_async`. -/
inductive AsyncResult where
  | error (msg : String)
  | started (callback_route : String) (accuracy : String)
deriving DecidableEq, Repr

/-- `get_location_async` (source lines 258-312), synchronous part.  Returns
the response dict, whether a background thread was spawned (source lines
304-306), and the cache as left by the synchronous call itself (the
synchronous path never touches it).  The empty string models the `None`
default of `callback_route` (both are falsy in `if not callback_route`). -/
def get_location_async (callback_route : String) (accuracy : String)
    (c : Cache) : AsyncResult × Bool × Cache :=
  if callback_route = "" then
    (AsyncResult.error "No callback_route specified", false, c)
  else
    let parsed := urlparseSchemeNetloc callback_route
    if parsed.1 = "" || parsed.2 = "" then
      (AsyncResult.error "Invalid callback_route format. Must be a valid URL.",
        false, c)
    else
      (AsyncResult.started callback_route accuracy, true, c)

/-! ### Concrete fixtures used by witnesses and counterexamples -/

/-- The initial module-level cache (source lines 30-34). -/
def cache0 : Cache := { data := none, timestamp := 0, cache_duration := 30 }

/-- Environment where authorization is denied. -/
def envDenied : Env := { authStatus := AuthStatus.denied, sensor := none }

/-- Environment where authorization is granted but the sensor never delivers
any notification (the pure-timeout scenario). -/
def envNoEvent : Env := { authStatus := AuthStatus.authorizedWhenInUse, sensor := none }

/-- An arbitrary concrete position fix. -/
def fix1 : PositionFix :=
  { latitude := 1, longitude := 2, accuracy := 3, altitude := 4,
    altitude_accuracy := 5, course := 6, speed := 7, timestamp := 8 }

/-! ### Shared structural lemmas -/

/-- On any call that does not take the fresh-cache short-circuit
(`use_cache = false`, or empty cache, or stale entry), `get_current_location`
is the acquisition path with clamped parameters. -/
theorem get_current_location_noncached (uc : Bool) (t : ℤ) (a : String) (p : ℚ)
    (env : Env) (c : Cache) (now : ℚ)
    (hnc : uc = false ∨ c.data = none ∨
      ¬ now - c.timestamp < (c.cache_duration : ℚ)) :
    get_current_location uc t a p env c now =
      runAcquisition (clampTimeout t) (clampPoll p) a env c now := by
  unfold get_current_location
  cases uc with
  | false => rcases h : c.data with _ | r <;> simp only [h]
  | true =>
      rcases h : c.data with _ | r
      · simp only [h]
      · simp only [h]
        rcases hnc with h1 | h1 | h1
        · exact absurd h1 (by simp)
        · rw [h] at h1; exact absurd h1 (by simp)
        · rw [if_neg h1]

/-- When authorization is not denied, the acquisition path stores the
returned outcome into the cache with the entry time `now`. -/
theorem runAcquisition_stores (t : ℤ) (p : ℚ) (a : String) (env : Env)
    (c : Cache) (now : ℚ) (hauth : env.authStatus ≠ AuthStatus.denied) :
    (runAcquisition t p a env c now).2.1 =
      storeOutcome c (runAcquisition t p a env c now).1 now := by
  unfold runAcquisition
  rw [if_neg hauth]

/-- When authorization is denied, the acquisition path fast-fails: generic
failure, cache untouched, sensor never started, zero loop iterations,
return at the entry time. -/
theorem runAcquisition_denied (t : ℤ) (p : ℚ) (a : String) (env : Env)
    (c : Cache) (now : ℚ) (hd : env.authStatus = AuthStatus.denied) :
    runAcquisition t p a env c now =
      (LocResult.failure (get_error_info none).2, c,
        { sensorStarted := false, loopIters := 0, usedCache := false,
          timeAtReturn := now }) := by
  unfold runAcquisition
  rw [if_pos hd]

/-! ### Claim theorems -/

/-- C10: `clear_location_cache` resets the entry to empty data and timestamp
0 while leaving the configured validity duration unchanged, so a subsequent
`get_cache_status` still reports the same duration. -/
theorem C10_clear_preserves_duration (c : Cache) :
    (clear_location_cache c).2.data = none ∧
    (clear_location_cache c).2.timestamp = 0 ∧
    (clear_location_cache c).2.cache_duration = c.cache_duration ∧
    (clear_location_cache c).1 = "cache_cleared" ∧
    ∀ now : ℚ, (get_cache_status (clear_location_cache c).2 now).cache_duration
      = c.cache_duration :=
  ⟨rfl, rfl, rfl, rfl, fun _ => rfl⟩

/-- C7: `set_cache_duration` clamps every integer input into [5, 300], stores
exactly the returned value, maps 1 to 5 and 1000 to 300, and stores in-range
inputs unchanged. -/
theorem C7_duration_clamp (s : ℤ) (c : Cache) :
    (5 ≤ (set_cache_duration s c).1 ∧ (set_cache_duration s c).1 ≤ 300) ∧
    (set_cache_duration s c).2.cache_duration = (set_cache_duration s c).1 ∧
    (set_cache_duration 1 c).1 = 5 ∧
    (set_cache_duration 1000 c).1 = 300 ∧
    (5 ≤ s → s ≤ 300 → (set_cache_duration s c).1 = s) := by
  refine ⟨⟨?_, ?_⟩, rfl, rfl, rfl, fun h1 h2 => ?_⟩ <;>
    simp only [set_cache_duration] <;> omega

/-- Witness for C7 at the in-range input 7. -/
theorem C7_duration_clamp_witness :
    (5:ℤ) ≤ 7 ∧ (7:ℤ) ≤ 300 ∧ (set_cache_duration 7 cache0).1 = 7 :=
  ⟨by norm_num, by norm_num,
    (C7_duration_clamp 7 cache0).2.2.2.2 (by norm_num) (by norm_num)⟩

/-- A cache entry aged exactly to its validity duration (5 seconds). -/
def cacheC2 : Cache :=
  { data := some (LocResult.failure "Unknown error"), timestamp := 0,
    cache_duration := 5 }

/-- C2 counterexample: at `now - timestamp = cache_duration` exactly, the
entry is no longer fresh, yet `get_cache_status` reports
`is_expired = false` — the code compares with strict `>` while freshness
uses strict `<`, so the claimed "is_expired exactly when now - t ≥ d"
fails at the boundary. -/
theorem C2_counterexample :
    cacheFresh cacheC2 5 = false ∧
    (get_cache_status cacheC2 5).is_expired = false := by
  constructor
  · unfold cacheFresh cacheC2; norm_num
  · unfold get_cache_status cacheC2; norm_num

/-- C2 amended: `is_expired` is true exactly when `now - t` STRICTLY exceeds
the duration — equivalently, exactly when the entry is not fresh and
`now - t ≠ d` (so at `now - t = d` a stale entry is still reported
unexpired); `seconds_until_expiration` floors at 0; an empty cache reports
`is_expired = true` with zeroed counters. -/
theorem C2_cache_status_boundary (c : Cache) (now : ℚ) :
    ((get_cache_status c now).is_expired = true ↔
      (cacheFresh c now = false ∧
        (c.data = none ∨ now - c.timestamp ≠ (c.cache_duration : ℚ)))) ∧
    (get_cache_status c now).seconds_since_update =
      (if c.data.isSome then now - c.timestamp else 0) ∧
    (get_cache_status c now).seconds_until_expiration =
      (if c.data.isSome then max 0 ((c.cache_duration : ℚ) - (now - c.timestamp))
       else 0) := by
  unfold get_cache_status cacheFresh
  rcases h : c.data with _ | r
  · simp [h]
  · simp [h]
    constructor
    · intro hgt
      exact ⟨le_of_lt hgt, ne_of_gt hgt⟩
    · rintro ⟨h1, h2⟩
      exact lt_of_le_of_ne h1 (Ne.symm h2)

/-- On a call with `use_cache = true` and a fresh cached entry,
`get_current_location` returns the cached outcome verbatim, touches nothing,
starts no sensor and runs no loop iteration. -/
theorem get_current_location_cached (t : ℤ) (a : String) (p : ℚ) (env : Env)
    (c : Cache) (now : ℚ) (r : LocResult) (hd : c.data = some r)
    (hf : now - c.timestamp < (c.cache_duration : ℚ)) :
    get_current_location true t a p env c now =
      (r, c,
        { sensorStarted := false, loopIters := 0, usedCache := true,
          timeAtReturn := now }) := by
  unfold get_current_location
  simp only [hd]
  rw [if_pos hf]

/-- C1 counterexample: on the authorization-denied fast-fail path (here with
`use_cache = false` and an empty cache) the failure outcome is returned but
NOT stored — the cache still holds no data afterwards, so an immediately
following `use_cache = true` call cannot return that outcome from the
cache. -/
theorem C1_counterexample :
    (get_current_location false 15 "best" 1 envDenied cache0 0).1 =
      LocResult.failure "Unknown error" ∧
    (get_current_location false 15 "best" 1 envDenied cache0 0).2.1.data =
      none := by
  rw [get_current_location_noncached _ _ _ _ _ _ _ (Or.inl rfl),
    runAcquisition_denied _ _ _ _ _ _ rfl]
  exact ⟨rfl, rfl⟩

/-- C1 amended: every call that neither takes the fresh-cache short-circuit
nor hits the authorization-denied fast-fail stores its outcome (success or
failure) into the cache before returning, so an immediately following
`use_cache = true` call within the validity window returns that same
outcome; the denied fast-fail path alone returns without storing. -/
theorem C1_store_on_acquisition (uc : Bool) (t : ℤ) (a : String) (p : ℚ)
    (env : Env) (c : Cache) (now t2 : ℚ) (t2i : ℤ) (a2 : String) (p2 : ℚ)
    (env2 : Env)
    (hnc : uc = false ∨ c.data = none ∨
      ¬ now - c.timestamp < (c.cache_duration : ℚ))
    (hauth : env.authStatus ≠ AuthStatus.denied)
    (hfresh : t2 - now < (c.cache_duration : ℚ)) :
    (get_current_location uc t a p env c now).2.1.data =
      some (get_current_location uc t a p env c now).1 ∧
    (get_current_location true t2i a2 p2 env2
        (get_current_location uc t a p env c now).2.1 t2).1 =
      (get_current_location uc t a p env c now).1 := by
  rw [get_current_location_noncached uc t a p env c now hnc]
  have hs := runAcquisition_stores (clampTimeout t) (clampPoll p) a env c now hauth
  constructor
  · rw [hs]; rfl
  · rw [hs, get_current_location_cached t2i a2 p2 env2 _ t2 _ rfl hfresh]

/-- Witness for C1 at a concrete timed-out acquisition followed by a
cached read one second later. -/
theorem C1_store_on_acquisition_witness :
    (get_current_location false 15 "best" 1 envNoEvent cache0 0).2.1.data =
      some (get_current_location false 15 "best" 1 envNoEvent cache0 0).1 ∧
    (get_current_location true 15 "best" 1 envNoEvent
        (get_current_location false 15 "best" 1 envNoEvent cache0 0).2.1 1).1 =
      (get_current_location false 15 "best" 1 envNoEvent cache0 0).1 :=
  C1_store_on_acquisition false 15 "best" 1 envNoEvent cache0 0 1 15 "best" 1
    envNoEvent (Or.inl rfl) (by decide) (by norm_num [cache0])

/-- C3 counterexample: an acquisition that times out with no notification at
all returns the failure description "Unknown error" (from
`_get_error_info(None)`), not the claimed "Unable to determine location"
message (which is produced only for an explicit `kCLErrorLocationUnknown`
error event). -/
theorem C3_counterexample :
    (get_current_location false 15 "best" 1 envNoEvent cache0 0).1 =
      LocResult.failure "Unknown error" ∧
    (get_current_location false 15 "best" 1 envNoEvent cache0 0).1 ≠
      LocResult.failure "Unable to determine location" := by
  refine ⟨rfl, ?_⟩
  intro hcontra
  rw [show (get_current_location false 15 "best" 1 envNoEvent cache0 0).1 =
      LocResult.failure "Unknown error" from rfl] at hcontra
  exact absurd hcontra (by decide)

/-- C3 amended: when an acquisition times out with no sensor notification at
all (no fix and no error event), `get_current_location` returns a failure
whose description is the generic "Unknown error" message. -/
theorem C3_timeout_generic_message (uc : Bool) (t : ℤ) (a : String) (p : ℚ)
    (env : Env) (c : Cache) (now : ℚ)
    (hnc : uc = false ∨ c.data = none ∨
      ¬ now - c.timestamp < (c.cache_duration : ℚ))
    (hauth : env.authStatus ≠ AuthStatus.denied)
    (hsen : env.sensor = none) :
    (get_current_location uc t a p env c now).1 =
      LocResult.failure "Unknown error" := by
  rw [get_current_location_noncached uc t a p env c now hnc]
  unfold runAcquisition
  rw [if_neg hauth]
  simp only [hsen]
  rfl

/-- Witness for C3 at a concrete timed-out acquisition. -/
theorem C3_timeout_generic_message_witness :
    (get_current_location false 15 "best" 1 envNoEvent cache0 0).1 =
      LocResult.failure "Unknown error" :=
  C3_timeout_generic_message false 15 "best" 1 envNoEvent cache0 0
    (Or.inl rfl) (by decide) rfl

/-- C4 counterexample: with `timeout = 15`, `polling_interval = 1` and a
sensor that never notifies, the wait loop takes 15 seconds, so the store
happens at wall-clock time 15 — yet the stored timestamp is 0, the value of
`current_time` captured at entry, before the acquisition ran. -/
theorem C4_counterexample :
    (get_current_location false 15 "best" 1 envNoEvent cache0 0).2.1.timestamp
      = 0 ∧
    (get_current_location false 15 "best" 1 envNoEvent cache0 0).2.2.timeAtReturn
      = 15 ∧
    (0 : ℚ) ≠ 15 := by
  refine ⟨rfl, ?_, by norm_num⟩
  rw [get_current_location_noncached _ _ _ _ _ _ _ (Or.inl rfl)]
  have ht : clampTimeout 15 = 15 := by decide
  have hp : clampPoll 1 = 1 := by unfold clampPoll; norm_num [max_def, min_def]
  rw [ht, hp]
  unfold runAcquisition
  rw [if_neg (show ¬ envNoEvent.authStatus = AuthStatus.denied by decide)]
  have hm : maxIters 15 1 = 15 := by unfold maxIters; norm_num
  simp only [envNoEvent, hm]
  norm_num

/-- C4 amended: on every path that runs an acquisition, the timestamp stored
alongside the outcome is the entry time `current_time` captured BEFORE the
acquisition ran (source line 145), while the wall-clock time at the store is
later by the loop time `loopIters * polling_interval`. -/
theorem C4_stored_timestamp_is_entry_time (uc : Bool) (t : ℤ) (a : String)
    (p : ℚ) (env : Env) (c : Cache) (now : ℚ)
    (hnc : uc = false ∨ c.data = none ∨
      ¬ now - c.timestamp < (c.cache_duration : ℚ))
    (hauth : env.authStatus ≠ AuthStatus.denied) :
    (get_current_location uc t a p env c now).2.1.timestamp = now ∧
    (get_current_location uc t a p env c now).2.2.timeAtReturn =
      now + ((get_current_location uc t a p env c now).2.2.loopIters : ℚ) *
        clampPoll p := by
  rw [get_current_location_noncached uc t a p env c now hnc]
  constructor
  · rw [runAcquisition_stores _ _ _ _ _ _ hauth]; rfl
  · unfold runAcquisition
    rw [if_neg hauth]

/-- Witness for C4 at a concrete timed-out acquisition. -/
theorem C4_stored_timestamp_witness :
    (get_current_location false 15 "best" 1 envNoEvent cache0 0).2.1.timestamp
      = 0 ∧
    (get_current_location false 15 "best" 1 envNoEvent cache0 0).2.2.timeAtReturn
      = 0 + ((get_current_location false 15 "best" 1 envNoEvent
          cache0 0).2.2.loopIters : ℚ) * clampPoll 1 :=
  C4_stored_timestamp_is_entry_time false 15 "best" 1 envNoEvent cache0 0
    (Or.inl rfl) (by decide)

/-- C5: freshness of the cache read — storing an outcome at `t1` and checking
at `t2` finds it fresh iff `t2 - t1 < cache_duration`, and in the fresh case
a `use_cache = true` call at `t2` returns exactly the stored outcome and
leaves the cache untouched. -/
theorem C5_freshness (c : Cache) (r : LocResult) (t1 t2 : ℚ) (t : ℤ)
    (a : String) (p : ℚ) (env : Env) (h : t1 < t2) :
    (cacheFresh (storeOutcome c r t1) t2 = true ↔
      t2 - t1 < (c.cache_duration : ℚ)) ∧
    (t2 - t1 < (c.cache_duration : ℚ) →
      (get_current_location true t a p env (storeOutcome c r t1) t2).1 = r ∧
      (get_current_location true t a p env (storeOutcome c r t1) t2).2.1 =
        storeOutcome c r t1) := by
  constructor
  · unfold cacheFresh storeOutcome
    simp
  · intro hf
    rw [get_current_location_cached t a p env _ t2 r rfl hf]
    exact ⟨rfl, rfl⟩

/-- Witness for C5: store at time 0, read back at time 10 with the default
30-second window. -/
theorem C5_freshness_witness :
    (0 : ℚ) < 10 ∧
    (get_current_location true 15 "best" 1 envNoEvent
        (storeOutcome cache0 (LocResult.fix fix1) 0) 10).1 =
      LocResult.fix fix1 :=
  ⟨by norm_num,
    ((C5_freshness cache0 (LocResult.fix fix1) 0 10 15 "best" 1 envNoEvent
      (by norm_num)).2 (by norm_num [cache0])).1⟩

/-- C6: fast-fail on authorization denial — on every call that does not take
the fresh-cache short-circuit, if the authorization state is the explicit
"denied" state, `get_current_location` returns a failure with the sensor
never started and zero wait-loop iterations, returning at the entry time. -/
theorem C6_fast_fail (uc : Bool) (t : ℤ) (a : String) (p : ℚ) (env : Env)
    (c : Cache) (now : ℚ)
    (hnc : uc = false ∨ c.data = none ∨
      ¬ now - c.timestamp < (c.cache_duration : ℚ))
    (hd : env.authStatus = AuthStatus.denied) :
    (∃ msg, (get_current_location uc t a p env c now).1 =
      LocResult.failure msg) ∧
    (get_current_location uc t a p env c now).2.2.sensorStarted = false ∧
    (get_current_location uc t a p env c now).2.2.loopIters = 0 ∧
    (get_current_location uc t a p env c now).2.2.timeAtReturn = now := by
  rw [get_current_location_noncached uc t a p env c now hnc,
    runAcquisition_denied _ _ _ _ _ _ hd]
  exact ⟨⟨"Unknown error", rfl⟩, rfl, rfl, rfl⟩

/-- Witness for C6 with a denied environment and an empty cache. -/
theorem C6_fast_fail_witness :
    (∃ msg, (get_current_location false 15 "best" 1 envDenied cache0 0).1 =
      LocResult.failure msg) ∧
    (get_current_location false 15 "best" 1 envDenied cache0 0).2.2.sensorStarted
      = false ∧
    (get_current_location false 15 "best" 1 envDenied cache0 0).2.2.loopIters
      = 0 ∧
    (get_current_location false 15 "best" 1 envDenied cache0 0).2.2.timeAtReturn
      = 0 :=
  C6_fast_fail false 15 "best" 1 envDenied cache0 0 (Or.inl rfl) rfl

/-- C8: async destination validation — for every `callback_route` that does
not parse to a URL with both a scheme and a host (including the empty
route), `get_location_async` returns an error result synchronously, spawns
no background task and leaves the cache unchanged. -/
theorem C8_async_validation (cb : String) (acc : String) (c : Cache)
    (h : (urlparseSchemeNetloc cb).1 = "" ∨ (urlparseSchemeNetloc cb).2 = "") :
    (∃ msg, (get_location_async cb acc c).1 = AsyncResult.error msg) ∧
    (get_location_async cb acc c).2.1 = false ∧
    (get_location_async cb acc c).2.2 = c := by
  unfold get_location_async
  by_cases hcb : cb = ""
  · rw [if_pos hcb]
    exact ⟨⟨_, rfl⟩, rfl, rfl⟩
  · rw [if_neg hcb]
    rcases h with h | h <;>
      simp [h]

/-- Witness for C8 at the spec's example route "not-a-url". -/
theorem C8_async_validation_witness :
    (∃ msg, (get_location_async "not-a-url" "best" cache0).1 =
      AsyncResult.error msg) ∧
    (get_location_async "not-a-url" "best" cache0).2.1 = false ∧
    (get_location_async "not-a-url" "best" cache0).2.2 = cache0 :=
  C8_async_validation "not-a-url" "best" cache0 (Or.inl rfl)

/-- C9: parameter clamp equivalence — for every cache state and sensor
behaviour, `get_current_location` with `timeout = 0, polling_interval = 5`
is the same call as with `timeout = 1, polling_interval = 1` (out-of-range
values are silently clamped into [1,30] and [1/10,1], with no error
path). -/
theorem C9_param_clamp_equiv (uc : Bool) (a : String) (env : Env) (c : Cache)
    (now : ℚ) (t : ℤ) (p : ℚ) :
    get_current_location uc 0 a 5 env c now =
      get_current_location uc 1 a 1 env c now ∧
    1 ≤ clampTimeout t ∧ clampTimeout t ≤ 30 ∧
    (1/10 : ℚ) ≤ clampPoll p ∧ clampPoll p ≤ 1 := by
  refine ⟨?_, ?_, ?_, ?_, ?_⟩
  · have h1 : clampTimeout 0 = clampTimeout 1 := by decide
    have h2 : clampPoll 5 = clampPoll 1 := by
      unfold clampPoll; norm_num [max_def, min_def]
    unfold get_current_location
    rw [h1, h2]
  · unfold clampTimeout; omega
  · unfold clampTimeout; omega
  · exact le_min (le_max_left _ _) (by norm_num)
  · exact min_le_right _ _
